import Mathlib

/-!
Verification development for the quickbooks-mcp-server repository.

The Python sources under src/quickbooks_mcp_server are shallowly embedded
below: JSON values become the inductive type JVal, Python dict/`.get`
access becomes association-list lookup, Python `int(...)` / `float(...)`
become explicit parsers into Int / Rat, and fallible code returns Except.
Machine behaviour that the claims do not touch (HTTP transport, the MCP
framework, environment loading) is abstracted at its boundary exactly the
way the source consumes it.
-/

namespace QB

/-- Model of a decoded JSON value.  JSON numbers in the documents the
    claims exercise are integers, so they are modelled as Int. -/
inductive JVal where
  | null
  | bool (b : Bool)
  | num (n : Int)
  | str (s : String)
  | arr (xs : List JVal)
  | obj (fields : List (String × JVal))

mutual

/-- Structural size of a JSON value, used as the recursion bound for the
    report walk. -/
def jsize : JVal → Nat
  | .null => 1
  | .bool _ => 1
  | .num _ => 1
  | .str _ => 1
  | .arr xs => 1 + jsizeL xs
  | .obj fs => 1 + jsizeF fs

/-- Structural size of a JSON list. -/
def jsizeL : List JVal → Nat
  | [] => 1
  | x :: xs => 1 + jsize x + jsizeL xs

/-- Structural size of a JSON field list. -/
def jsizeF : List (String × JVal) → Nat
  | [] => 1
  | kv :: xs => 1 + jsize kv.2 + jsizeF xs

end

/-- First-match association lookup; Python dict keys are unique, so this
    models `d[k]` / `d.get(k)` on a dict rendered as a field list. -/
def lookupStr : List (String × JVal) → String → Option JVal
  | [], _ => none
  | (k', v) :: rest, k => if k' = k then some v else lookupStr rest k

/-- Model of Python `value.get(key)` (None when the receiver is not a dict;
    the sources only call `.get` on values that are dicts in well-formed
    API responses). -/
def JVal.get : JVal → String → Option JVal
  | .obj fs, k => lookupStr fs k
  | _, _ => none

/-- Python truthiness of a JSON value (`if x:`). -/
def jtruthy : JVal → Bool
  | .null => false
  | .bool b => b
  | .num n => n != 0
  | .str s => s != ""
  | .arr xs => !xs.isEmpty
  | .obj fs => !fs.isEmpty

/-- Truthiness of an optional value (`d.get(k)` is None when absent). -/
def jtruthyO : Option JVal → Bool
  | none => false
  | some v => jtruthy v

/-- Extracts a truthy string: `some s` exactly when the value is a
    non-empty string.  The sources use labels and ids that are strings in
    every well-formed report document. -/
def truthyStr : Option JVal → Option String
  | some (.str s) => if s = "" then none else some s
  | _ => none

/-- Python type name, as used in the `Expected dict response but got ...`
    error message. -/
def pyTypeName : JVal → String
  | .null => "NoneType"
  | .bool _ => "bool"
  | .num _ => "int"
  | .str _ => "str"
  | .arr _ => "list"
  | .obj _ => "dict"

/-- Numeric value of a digit list (most significant first). -/
def digitsVal (cs : List Char) : Nat :=
  cs.foldl (fun a c => a * 10 + (c.toNat - 48)) 0

/-- Splits a leading sign character, returning the sign and the rest. -/
def parseSign : List Char → Int × List Char
  | '-' :: rest => (-1, rest)
  | '+' :: rest => (1, rest)
  | cs => (1, cs)

/-- Strips surrounding whitespace, as Python's int/float parsing does. -/
def stripWs (s : String) : List Char :=
  ((s.toList.dropWhile Char.isWhitespace).reverse.dropWhile
    Char.isWhitespace).reverse

/-- Model of Python `int(s)` on a string: optional surrounding whitespace,
    optional sign, then one or more ASCII digits (digit-group underscores
    and non-ASCII digits are not modelled). -/
def pyIntOfString (s : String) : Option Int :=
  let cs := stripWs s
  let sc := parseSign cs
  if !sc.2.isEmpty && sc.2.all Char.isDigit then
    some (sc.1 * (digitsVal sc.2 : Int))
  else
    none

/-- Model of Python `int(x)` on a decoded JSON value; `none` models the
    TypeError/ValueError raise. -/
def pyInt : JVal → Option Int
  | .num n => some n
  | .bool b => some (if b then 1 else 0)
  | .str s => pyIntOfString s
  | _ => none

/-- Splits a char list at the first exponent marker `e`/`E`. -/
def splitExp : List Char → List Char × Option (List Char)
  | [] => ([], none)
  | c :: rest =>
    if c = 'e' ∨ c = 'E' then ([], some rest)
    else
      let p := splitExp rest
      (c :: p.1, p.2)

/-- Parses the mantissa `digits [. digits]` / `. digits` of a Python float
    literal, returning the digit value and the fraction length. -/
def parseMantissa (cs : List Char) : Option (Nat × Nat) :=
  let sp := cs.span Char.isDigit
  match sp.2 with
  | [] => if sp.1.isEmpty then none else some (digitsVal sp.1, 0)
  | '.' :: frac =>
    if frac.all Char.isDigit && (!sp.1.isEmpty || !frac.isEmpty) then
      some (digitsVal (sp.1 ++ frac), frac.length)
    else none
  | _ => none

/-- Parses the optional exponent part (after `e`/`E`). -/
def parseExpPart : Option (List Char) → Option Int
  | none => some 0
  | some cs =>
    let sc := parseSign cs
    if !sc.2.isEmpty && sc.2.all Char.isDigit then
      some (sc.1 * (digitsVal sc.2 : Int))
    else none

/-- The exact rational `sign * mant * 10 ^ (e - fracLen)`, assembled with
    integer arithmetic and a single exact division. -/
def decimalValue (sign : Int) (mant : Nat) (e : Int) (fracLen : Nat) : Rat :=
  let exp : Int := e - fracLen
  if 0 ≤ exp then Rat.divInt (sign * mant * (10 ^ exp.toNat : Nat)) 1
  else Rat.divInt (sign * mant) ((10 ^ (-exp).toNat : Nat) : Int)

/-- Model of Python `float(s)` on the finite decimal fragment
    (`[ws][sign](digits[.digits] | .digits)[exponent][ws]`), producing the
    exact rational value; `inf`/`nan` and digit underscores are outside the
    modelled fragment.  The amounts the claims exercise are exact. -/
def parsePyFloat (s : String) : Option Rat :=
  let cs := stripWs s
  let sc := parseSign cs
  let me := splitExp sc.2
  match parseMantissa me.1, parseExpPart me.2 with
  | some mf, some e => some (decimalValue sc.1 mf.1 e mf.2)
  | _, _ => none

/-- Model of `float(x)` applied to an optional decoded value; `none`
    models the TypeError / ValueError raise that the flattener catches. -/
def pyFloatO : Option JVal → Option Rat
  | some (.str s) => parsePyFloat s
  | some (.num n) => some (n : Rat)
  | some (.bool b) => some (if b then 1 else 0)
  | _ => none

/-! ### Pagination (handlers.py, query_quickbooks lines 96-148) -/

/-- Effective page size of a query response (handlers.py lines 120-127):
    the response's own `maxResults` when present and parseable, else the
    caller's `page_size` when not None. -/
def effectivePageSize (fs : List (String × JVal)) (pageSize : Option Int) :
    Option Int :=
  match (lookupStr fs "maxResults").bind pyInt with
  | some m => some m
  | none => pageSize

/-- Embeds the next-page-token block of `query_quickbooks`
    (handlers.py lines 117-143).  `rowsLen` is `len(rows)` computed just
    above the block in the source; `pageSize` is the `page_size` argument.
    The surrounding `try/except` maps every parse failure (and a non-dict
    QueryResponse) to an absent token, which is the `none` arm here. -/
def computeNextPageToken (qr : JVal) (rowsLen : Nat) (pageSize : Option Int) :
    Option String :=
  match qr with
  | .obj fs =>
    match pyInt ((lookupStr fs "startPosition").getD (.num 1)) with
    | none => none
    | some start =>
      let total : Option Int := (lookupStr fs "totalCount").bind pyInt
      match effectivePageSize fs pageSize with
      | none => none
      | some m =>
        match total with
        | some t =>
          if start + m ≤ t then some (toString (start + m))
          else if (rowsLen : Int) = m then some (toString (start + m))
          else none
        | none =>
          if (rowsLen : Int) = m then some (toString (start + m)) else none
  | _ => none

/-- Embeds the page-token validation prefix of `query_quickbooks`
    (handlers.py lines 96-103).  Runs before any request is dispatched;
    `.error` models the `ValueError` raise. -/
def parsePageTokenQuery (pageToken : Option String) : Except String (Option Int) :=
  match pageToken with
  | none => .ok none
  | some s =>
    if s = "" then .ok none
    else
      match pyIntOfString s with
      | some n => .ok (some n)
      | none => .error "Invalid page_token; expected integer string for start position"

/-- Embeds the page-token validation of `get_report`
    (handlers.py lines 300-306), identical logic writing
    `params[startposition]`; runs before the report request is dispatched. -/
def parsePageTokenReport (pageToken : Option String) : Except String (Option Int) :=
  match pageToken with
  | none => .ok none
  | some s =>
    if s = "" then .ok none
    else
      match pyIntOfString s with
      | some n => .ok (some n)
      | none => .error "Invalid page_token; expected integer string for start position"

/-! ### Dispatcher (quickbooks_interaction.py, call_route lines 59-93) -/

/-- An HTTP response at the transport boundary: status code, decoded JSON
    body (used on 200), and raw text (used in error messages). -/
structure HttpResp where
  status : Nat
  body : JVal
  text : String

/-- The error surfaced by call_route: `RuntimeError(f"Error: {status} {text}")`
    carries the status and the raw body. -/
structure ApiError where
  status : Nat
  rawBody : String
deriving DecidableEq

/-- Embeds `QuickBooksSession.call_route` (quickbooks_interaction.py
    lines 59-93).  The URL, params and body are fixed across both
    attempts in the source, so the transport is modelled by the two
    responses `r1` (first attempt) and `r2` (the retry of the identical
    request).  Returns (result, number of transport requests made,
    number of credential refreshes performed). -/
def call_route (r1 r2 : HttpResp) : Except ApiError JVal × Nat × Nat :=
  if r1.status = 200 then (.ok r1.body, 1, 0)
  else if r1.status = 401 then
    (if r2.status = 200 then .ok r2.body
     else .error ⟨r2.status, r2.text⟩, 2, 1)
  else (.error ⟨r1.status, r1.text⟩, 1, 0)

/-! ### Response-shape normalization (main.py lines 111-119 and 234-240) -/

/-- Embeds the response-shape normalization used by `query_quickbooks`
    and by every generated operation: a dict passes through, a list is
    wrapped under `results`, anything else raises TypeError. -/
def normalizeResponse (v : JVal) : Except String JVal :=
  match v with
  | .obj fs => .ok (.obj fs)
  | .arr xs => .ok (.obj [("results", .arr xs)])
  | other => .error ("Expected dict response but got " ++ pyTypeName other)

/-! ### Report flattening (handlers.py, _flatten_report_rows lines 151-239) -/

/-- One long-format output row of the flattener (the dict literals built
    at handlers.py lines 201-209 and 225-234).  `line_id` is `none` when
    the source omits the key (falsy id, or a Summary row). -/
structure ReportRow where
  line : String
  period : String
  amount : Rat
  line_type : String
  depth : Nat
  line_id : Option String
deriving DecidableEq

/-- Coerces an optional value to a list: the `or []` / `get(..., [])`
    defaults the flattener applies before iterating column data. -/
def asList : Option JVal → List JVal
  | some (.arr xs) => xs
  | _ => []

/-- Option to singleton list — the `([label] if label else [])` idiom. -/
def optList : Option String → List String
  | some s => [s]
  | none => []

/-- Embeds the per-column emission loop
    `for idx, cd in enumerate(coldata[1:], start=1)` of the flattener
    (handlers.py lines 194-209 and 217-234): a column whose value fails
    `float(...)` is skipped silently; a parsed column emits one row whose
    period is the column title at that index or the positional fallback. -/
def emitCols (cols : List String) (fullLine ltype : String) (depth : Nat)
    (lineId : Option String) : Nat → List JVal → List ReportRow
  | _, [] => []
  | idx, cd :: rest =>
    match pyFloatO (cd.get "value") with
    | none => emitCols cols fullLine ltype depth lineId (idx + 1) rest
    | some amt =>
      ⟨fullLine, (cols.get? idx).getD ("col_" ++ toString idx), amt, ltype,
        depth, lineId⟩ :: emitCols cols fullLine ltype depth lineId (idx + 1) rest

/-- Embeds the leaf branch of `walk` (handlers.py lines 212-234): a Data
    or Summary row with `ColData`; label and id come from the first
    column, the full line joins the lineage with the label appended when
    truthy, `depth` is the lineage length, and the remaining columns are
    emitted by `emitCols` starting at index 1. -/
def leafEmit (cols : List String) (lineage : List String)
    (rtypeOpt : Option String) (row : JVal) : List ReportRow :=
  let coldata := asList (row.get "ColData")
  let label := coldata.head?.bind (fun cd => truthyStr (cd.get "value"))
  let lineId := coldata.head?.bind (fun cd => truthyStr (cd.get "id"))
  let fullLine := String.intercalate " > " (lineage ++ optList label)
  emitCols cols fullLine (rtypeOpt.getD "Data") lineage.length lineId 1
    (coldata.drop 1)

/-- Row-type tag of a row: `row.get("type") or row.get("RowType")`,
    collapsed to `some` exactly for truthy string tags. -/
def rowTypeOf (row : JVal) : Option String :=
  match truthyStr (row.get "type") with
  | some s => some s
  | none => truthyStr (row.get "RowType")

/-- Section header label (handlers.py lines 175-181): first header column
    value, falling back to the header `Title` when falsy. -/
def sectionHeaderTitle (row : JVal) : Option String :=
  let headerObj := row.get "Header"
  let hcoldata := asList (headerObj.bind (fun h => h.get "ColData"))
  match hcoldata.head?.bind (fun cd => truthyStr (cd.get "value")) with
  | some s => some s
  | none => headerObj.bind (fun h => truthyStr (h.get "Title"))

/-- Nested rows of a Section: `row.get("Rows", {}).get("Row", [])`,
    walked only when it is a non-empty list. -/
def nestedRowsOf (row : JVal) : List JVal :=
  match (row.get "Rows").bind (fun r => JVal.get r "Row") with
  | some (.arr l) => l
  | _ => []

/-- Summary flattening of a Section row (handlers.py lines 186-209):
    when the section carries a dict `Summary`, its columns are emitted
    with the extended lineage, the summary's own label appended when
    truthy, row type `Summary`, and depth the extended-lineage length. -/
def sectionSummaryRows (cols : List String) (newLineage : List String)
    (row : JVal) : List ReportRow :=
  match row.get "Summary" with
  | some (.obj sf) =>
    let scoldata := asList (lookupStr sf "ColData")
    let slabel :=
      match truthyStr (lookupStr sf "ColTitle") with
      | some s => some s
      | none => scoldata.head?.bind (fun cd => truthyStr (cd.get "value"))
    let fullLine := String.intercalate " > " (newLineage ++ optList slabel)
    emitCols cols fullLine "Summary" newLineage.length none 1 (scoldata.drop 1)
  | _ => []

/-- Embeds `walk(rows, lineage)` (handlers.py lines 170-234).  A Section
    row recurses into its nested rows with the lineage extended by the
    (truthy) header label, then flattens its own Summary with the
    extended lineage; every other row is a leaf handled by `leafEmit`.
    `fuel` is a structural-recursion bound; `flattenReportRows` supplies
    `jsize report`, which dominates the call depth (each call consumes
    one unit and descends strictly into the document), so the zero-fuel
    arm is never reached from the top-level entry point. -/
def walkRows (cols : List String) : Nat → List String → List JVal → List ReportRow
  | _, _, [] => []
  | 0, _, _ => []
  | fuel + 1, lineage, row :: rest =>
    (let rtypeOpt := rowTypeOf row
     if rtypeOpt = some "Section" then
       let newLineage := lineage ++ optList (sectionHeaderTitle row)
       let nested := nestedRowsOf row
       let fromNested :=
         if nested.isEmpty then [] else walkRows cols fuel newLineage nested
       fromNested ++ sectionSummaryRows cols newLineage row
     else
       leafEmit cols lineage rtypeOpt row) ++
    walkRows cols fuel lineage rest

/-- Embeds `_get_column_titles` (handlers.py lines 151-157):
    `col.get("ColTitle") or col.get("ColType") or ""` per column. -/
def getColumnTitles (report : JVal) : List String :=
  (asList ((report.get "Columns").bind (fun c => JVal.get c "Column"))).map
    (fun col =>
      match truthyStr (col.get "ColTitle") with
      | some s => s
      | none => (truthyStr (col.get "ColType")).getD "")

/-- Embeds `_flatten_report_rows` (handlers.py lines 160-239).  The top
    rows are walked only when `Rows` is a dict whose `Row` is a list,
    exactly matching the two isinstance guards in the source. -/
def flattenReportRows (report : JVal) : List ReportRow :=
  let cols := getColumnTitles report
  let topRows :=
    match report.get "Rows" with
    | some (.obj fs) =>
      match lookupStr fs "Row" with
      | some (.arr l) => l
      | _ => []
    | _ => []
  walkRows cols (jsize report) [] topRows

/-- The report document of the C4 scenario: a Section headed "Income"
    containing one Data row, under columns Account/Jan/Feb. -/
def demoReport : JVal :=
  .obj
    [("Columns",
      .obj [("Column",
        .arr [.obj [("ColTitle", .str "Account")],
              .obj [("ColTitle", .str "Jan")],
              .obj [("ColTitle", .str "Feb")]])]),
     ("Rows",
      .obj [("Row",
        .arr [.obj
          [("type", .str "Section"),
           ("Header", .obj [("ColData", .arr [.obj [("value", .str "Income")]])]),
           ("Rows",
            .obj [("Row",
              .arr [.obj
                [("type", .str "Data"),
                 ("ColData",
                  .arr [.obj [("value", .str "Sales")],
                        .obj [("value", .str "1000")],
                        .obj [("value", .str "1200")]])]])])]])])]

/-! ### Request binding (main.py, generated operation body lines 196-232) -/

/-- A parsed route template: literal text interleaved with placeholders.
    The placeholder `name` renders as the brace-wrapped segment the
    Python template string contains. -/
inductive RoutePart where
  | lit (s : String)
  | hole (name : String)
deriving DecidableEq

def lbraceS : String := "\x7b"
def rbraceS : String := "\x7d"

/-- Renders a template back to its literal Python route string (what the
    `route` variable holds before `route.format(...)` runs). -/
def renderTemplate : List RoutePart → String
  | [] => ""
  | .lit s :: rest => s ++ renderTemplate rest
  | .hole n :: rest => lbraceS ++ n ++ rbraceS ++ renderTemplate rest

/-- String-map lookup for caller arguments and parameter maps. -/
def lookupS : List (String × String) → String → Option String
  | [], _ => none
  | (k', v) :: rest, k => if k' = k then some v else lookupS rest k

/-- Model of Python `route.format(**path_params)`: substitutes each
    placeholder left to right, raising KeyError (the `.error` arm, naming
    the placeholder) at the first placeholder without a binding. -/
def pyFormat : List RoutePart → List (String × String) → Except String String
  | [], _ => .ok ""
  | .lit s :: rest, m => (pyFormat rest m).map (fun r => s ++ r)
  | .hole n :: rest, m =>
    match lookupS m n with
    | some v => (pyFormat rest m).map (fun r => v ++ r)
    | none => .error n

/-- A declared operation parameter as the generated code consumes it
    (`p_info['name']`, `p_info['location']`). -/
structure ParamInfo where
  name : String
  location : String
deriving DecidableEq

/-- Path-parameter classification (main.py lines 206-210): declared
    parameters with location `path` whose name appears in the caller
    arguments. -/
def pathParamsOf (apiParams : List ParamInfo) (kwargs : List (String × String)) :
    List (String × String) :=
  apiParams.filterMap (fun p =>
    if p.location = "path" then (lookupS kwargs p.name).map (fun v => (p.name, v))
    else none)

/-- Query-parameter classification (main.py lines 211-212). -/
def queryParamsOf (apiParams : List ParamInfo) (kwargs : List (String × String)) :
    List (String × String) :=
  apiParams.filterMap (fun p =>
    if p.location = "query" then (lookupS kwargs p.name).map (fun v => (p.name, v))
    else none)

/-- Request-body classification (main.py lines 214-218): for body-bearing
    methods, every argument key not consumed as a path or query parameter
    (Python iterates a set; the source order of `kwargs` is kept here). -/
def bodyOf (methodLower : String) (pathP queryP kwargs : List (String × String)) :
    List (String × String) :=
  if methodLower = "post" ∨ methodLower = "put" ∨ methodLower = "patch" then
    kwargs.filter (fun kv =>
      (lookupS pathP kv.1).isNone && (lookupS queryP kv.1).isNone)
  else []

/-- The error raised at main.py line 225:
    `Missing required path parameter {e} for route {route}` — it names
    the missing placeholder and the (still unformatted) route. -/
structure BindingError where
  placeholder : String
  route : String
deriving DecidableEq

/-- A concrete request as handed to `quickbooks.call_route`
    (main.py lines 227-232). -/
structure BoundRequest where
  route : String
  queryParams : List (String × String)
  body : List (String × String)
deriving DecidableEq

/-- Embeds the binding prelude of every generated operation
    (main.py lines 196-232): classify arguments, then format the route —
    but only when at least one path parameter was collected
    (`if path_params:`); with an empty path map the template is passed to
    the dispatcher unformatted. -/
def bindRequest (tpl : List RoutePart) (apiParams : List ParamInfo)
    (methodLower : String) (kwargs : List (String × String)) :
    Except BindingError BoundRequest :=
  let pp := pathParamsOf apiParams kwargs
  let qp := queryParamsOf apiParams kwargs
  let body := bodyOf methodLower pp qp kwargs
  if pp.isEmpty then .ok ⟨renderTemplate tpl, qp, body⟩
  else
    match pyFormat tpl pp with
    | .ok r => .ok ⟨r, qp, body⟩
    | .error missing => .error ⟨missing, renderTemplate tpl⟩

/-- Placeholders of a template, in order. -/
def holesOf : List RoutePart → List String
  | [] => []
  | .lit _ :: rest => holesOf rest
  | .hole n :: rest => n :: holesOf rest

/-- Boolean success test for a binding result. -/
def bindOk {ε α : Type} : Except ε α → Bool
  | .ok _ => true
  | .error _ => false

/-! ### Operation naming (main.py, register_all_apis lines 127-142) -/

/-- Model of Python `s.replace(pat, rep)`: left-to-right, non-overlapping
    replacement of every occurrence.  `fuel` is a structural bound; the
    wrapper supplies the input length, which suffices because every step
    consumes at least one input character. -/
def pyReplaceAux (pat rep : List Char) : Nat → List Char → List Char
  | _, [] => []
  | 0, _ => []
  | fuel + 1, c :: rest =>
    if pat.isPrefixOf (c :: rest) then
      rep ++ pyReplaceAux pat rep fuel (List.drop (pat.length - 1) rest)
    else c :: pyReplaceAux pat rep fuel rest

/-- String wrapper for `pyReplaceAux` (patterns in the sources are
    non-empty). -/
def pyReplace (s pat rep : String) : String :=
  ⟨pyReplaceAux pat.toList rep.toList s.toList.length s.toList⟩

/-- The tenant-scope segment stripped from routes (main.py lines 129-132). -/
def tenantSegment : String := "/v3/company/" ++ lbraceS ++ "realmId" ++ rbraceS

/-- Strips the tenant-scope segment.  The source guards the replace with a
    containment test, which is equivalent since replace of an absent
    pattern is the identity. -/
def stripTenant (route : String) : String := pyReplace route tenantSegment ""

/-- Embeds the separator normalization (main.py lines 134-140):
    `/`, `-`, `:` become `_`; braces are deleted. -/
def cleanRouteForName (r : String) : String :=
  pyReplace (pyReplace (pyReplace (pyReplace (pyReplace r "/" "_") "-" "_")
    ":" "_") lbraceS "") rbraceS ""

/-- Embeds the public operation name construction (main.py line 142):
    method concatenated with the normalized, tenant-stripped route. -/
def operationName (method route : String) : String :=
  method ++ cleanRouteForName (stripTenant route)

/-- The separator characters the normalization eliminates. -/
def nameSeparators : List Char := ['/', '-', ':', Char.ofNat 123, Char.ofNat 125]

/-- Embeds the registration loop of `register_all_apis` as the sequence
    of tool names it defines and registers (one `@mcp.tool()` def per
    (method, route) pair, in order).  The source contains no duplicate
    detection: every pair is registered unconditionally. -/
def registerAll (apis : List (String × String)) : List String :=
  apis.map (fun a => operationName a.1 a.2)

/-! ### Request-body schema resolution (api_importer.py, load_apis lines 58-80) -/

/-- Iterates the non-properties, non-scalar schema keys
    (api_importer.py lines 75-80): every key must be `$ref`, resolved one
    level against the components catalogue to that target's `properties`;
    any other key raises `Unknown key`. -/
def refLoop (components : List (String × JVal)) :
    List (String × JVal) → Option JVal → Except String (Option JVal)
  | [], acc => .ok acc
  | (k, v) :: rest, _acc =>
    if k = "$ref" then
      match v with
      | .str ref =>
        let name := (ref.splitOn "/").getLastD ""
        match lookupStr components name with
        | some (.obj cf) =>
          match lookupStr cf "properties" with
          | some p => refLoop components rest (some p)
          | none => .error "KeyError: properties"
        | some _ => .error "TypeError: component not subscriptable"
        | none => .error ("KeyError: " ++ name)
      | _ => .error "AttributeError: ref value has no split"
    else .error ("Unknown key: " ++ k)

/-- Embeds the request-body resolution of `load_apis`
    (api_importer.py lines 61-80): a truthy `properties` dict maps each
    property to `value.get("description")` — absent descriptions become
    null, exactly the source's `.get` without default; else a scalar
    `type`/`description` pair becomes a single-entry map; else every
    remaining key must be a `$ref`. -/
def resolveRequestData (schema : JVal) (components : List (String × JVal)) :
    Except String (Option JVal) :=
  match schema with
  | .obj fields =>
    let properties := lookupStr fields "properties"
    if jtruthyO properties then
      match properties with
      | some (.obj props) =>
        .ok (some (.obj (props.map (fun kv =>
          (kv.1, (kv.2.get "description").getD JVal.null)))))
      | _ => .error "TypeError: properties not a dict"
    else if (lookupStr fields "type").isSome && (lookupStr fields "description").isSome then
      match lookupStr fields "type" with
      | some (.str t) =>
        .ok (some (.obj [(t, (lookupStr fields "description").getD JVal.null)]))
      | _ => .error "TypeError: unhashable schema type"
    else
      refLoop components fields none
  | _ => .error "AttributeError: schema has no get"

end QB

namespace QB

/-! ## Helper lemmas (shared) -/

/-- The emission loop produces exactly one row per column whose value
    parses as a number. -/
theorem emitCols_length (cols : List String) (fl lt : String) (d : Nat)
    (li : Option String) (idx : Nat) (cds : List JVal) :
    (emitCols cols fl lt d li idx cds).length =
      cds.countP (fun cd => (pyFloatO (cd.get "value")).isSome) := by
  induction cds generalizing idx with
  | nil => simp [emitCols]
  | cons cd rest ih =>
    cases h : pyFloatO (cd.get "value") with
    | none => simp [emitCols, h, ih, List.countP_cons]
    | some amt => simp [emitCols, h, ih, List.countP_cons]

/-- Formatting succeeds exactly when every placeholder has a binding. -/
theorem pyFormat_ok_iff (tpl : List RoutePart) (m : List (String × String)) :
    (∃ r, pyFormat tpl m = .ok r) ↔
      ∀ n ∈ holesOf tpl, (lookupS m n).isSome := by
  induction tpl with
  | nil => simp [pyFormat, holesOf]
  | cons p rest ih =>
    cases p with
    | lit s =>
      cases hr : pyFormat rest m with
      | ok r => simp [pyFormat, holesOf, hr, Except.map, ← ih]
      | error e => simp [pyFormat, holesOf, hr, Except.map, ← ih]
    | hole n =>
      cases hn : lookupS m n with
      | none => simp [pyFormat, holesOf, hn]
      | some v =>
        cases hr : pyFormat rest m with
        | ok r => simp [pyFormat, holesOf, hn, hr, Except.map, ← ih]
        | error e => simp [pyFormat, holesOf, hn, hr, Except.map, ← ih]

/-- A formatting failure names a placeholder of the template that has no
    binding in the path map. -/
theorem pyFormat_error_spec (tpl : List RoutePart) (m : List (String × String)) :
    ∀ e, pyFormat tpl m = .error e → e ∈ holesOf tpl ∧ lookupS m e = none := by
  induction tpl with
  | nil => intro e he; simp [pyFormat] at he
  | cons p rest ih =>
    intro e he
    cases p with
    | lit s =>
      cases hr : pyFormat rest m with
      | ok r => rw [pyFormat, hr] at he; simp [Except.map] at he
      | error e' =>
        rw [pyFormat, hr] at he
        simp [Except.map] at he
        subst he
        simpa [holesOf] using ih e' hr
    | hole n =>
      cases hn : lookupS m n with
      | none =>
        rw [pyFormat, hn] at he
        simp at he
        subst he
        exact ⟨by simp [holesOf], hn⟩
      | some v =>
        rw [pyFormat, hn] at he
        cases hr : pyFormat rest m with
        | ok r => rw [hr] at he; simp [Except.map] at he
        | error e' =>
          rw [hr] at he
          simp [Except.map] at he
          subst he
          have := ih e' hr
          exact ⟨by simp [holesOf, this.1], this.2⟩

/-- An absent effective page size makes the next-page token absent. -/
theorem token_none_of_eps_none (fs : List (String × JVal)) (rowsLen : Nat)
    (pageSize : Option Int) (h : effectivePageSize fs pageSize = none) :
    computeNextPageToken (.obj fs) rowsLen pageSize = none := by
  simp only [computeNextPageToken]
  cases hs : pyInt ((lookupStr fs "startPosition").getD (.num 1)) with
  | none => simp [hs]
  | some start => simp [hs, h]

/-- Replacing the single character `c` by a replacement not containing it
    eliminates every occurrence of `c`. -/
theorem pyReplaceAux_eliminates (c : Char) (rep : List Char)
    (hc : c ∉ rep) : ∀ (fuel : Nat) (l : List Char),
    c ∉ pyReplaceAux [c] rep fuel l := by
  intro fuel
  induction fuel with
  | zero =>
    intro l
    cases l with
    | nil => simp [pyReplaceAux]
    | cons a rest => simp [pyReplaceAux]
  | succ f ih =>
    intro l
    cases l with
    | nil => simp [pyReplaceAux]
    | cons a rest =>
      by_cases hp : List.isPrefixOf [c] (a :: rest) = true
      · rw [pyReplaceAux, if_pos hp]
        intro hmem
        rcases List.mem_append.mp hmem with h1 | h2
        · exact hc h1
        · exact ih _ h2
      · rw [pyReplaceAux, if_neg hp]
        intro hmem
        rcases List.mem_cons.mp hmem with h1 | h2
        · apply hp
          subst h1
          simp [List.isPrefixOf]
        · exact ih _ h2

/-- Replacement with a pattern and replacement not containing `c` never
    introduces `c`. -/
theorem pyReplaceAux_preserves (pat rep : List Char) (c : Char)
    (hc : c ∉ rep) : ∀ (fuel : Nat) (l : List Char), c ∉ l →
    c ∉ pyReplaceAux pat rep fuel l := by
  intro fuel
  induction fuel with
  | zero =>
    intro l _
    cases l with
    | nil => simp [pyReplaceAux]
    | cons a rest => simp [pyReplaceAux]
  | succ f ih =>
    intro l hl
    cases l with
    | nil => simp [pyReplaceAux]
    | cons a rest =>
      by_cases hp : List.isPrefixOf pat (a :: rest) = true
      · rw [pyReplaceAux, if_pos hp]
        intro hmem
        rcases List.mem_append.mp hmem with h1 | h2
        · exact hc h1
        · refine ih _ ?_ h2
          intro hd
          exact hl (List.mem_cons_of_mem a (List.mem_of_mem_drop hd))
      · rw [pyReplaceAux, if_neg hp]
        intro hmem
        rcases List.mem_cons.mp hmem with h1 | h2
        · exact hl (h1 ▸ List.mem_cons_self a rest)
        · exact ih _ (fun hd => hl (List.mem_cons_of_mem a hd)) h2

/-- Character-level view of `pyReplace`. -/
theorem pyReplace_toList (s pat rep : String) :
    (pyReplace s pat rep).toList =
      pyReplaceAux pat.toList rep.toList s.toList.length s.toList := rfl

/-- After the five-step normalization no separator character remains. -/
theorem cleanRouteForName_sepFree (r : String) :
    ∀ c ∈ (cleanRouteForName r).toList, c ∉ nameSeparators := by
  intro c hmem hsep
  have h1 : ('/' : Char) ∉ (pyReplace r "/" "_").toList := by
    rw [pyReplace_toList]
    exact pyReplaceAux_eliminates '/' "_".toList (by decide) _ _
  have h2 : ('-' : Char) ∉ (pyReplace (pyReplace r "/" "_") "-" "_").toList := by
    rw [pyReplace_toList]
    exact pyReplaceAux_eliminates '-' "_".toList (by decide) _ _
  have h1b : ('/' : Char) ∉ (pyReplace (pyReplace r "/" "_") "-" "_").toList := by
    rw [pyReplace_toList]
    exact pyReplaceAux_preserves _ _ _ (by decide) _ _ h1
  have h3 : (':' : Char) ∉
      (pyReplace (pyReplace (pyReplace r "/" "_") "-" "_") ":" "_").toList := by
    rw [pyReplace_toList]
    exact pyReplaceAux_eliminates ':' "_".toList (by decide) _ _
  have h2b : ('-' : Char) ∉
      (pyReplace (pyReplace (pyReplace r "/" "_") "-" "_") ":" "_").toList := by
    rw [pyReplace_toList]
    exact pyReplaceAux_preserves _ _ _ (by decide) _ _ h2
  have h1c : ('/' : Char) ∉
      (pyReplace (pyReplace (pyReplace r "/" "_") "-" "_") ":" "_").toList := by
    rw [pyReplace_toList]
    exact pyReplaceAux_preserves _ _ _ (by decide) _ _ h1b
  have h4 : (Char.ofNat 123) ∉
      (pyReplace (pyReplace (pyReplace (pyReplace r "/" "_") "-" "_") ":" "_")
        lbraceS "").toList := by
    rw [pyReplace_toList]
    have : lbraceS.toList = [Char.ofNat 123] := by decide
    rw [this]
    exact pyReplaceAux_eliminates (Char.ofNat 123) "".toList (by decide) _ _
  have h3b : (':' : Char) ∉
      (pyReplace (pyReplace (pyReplace (pyReplace r "/" "_") "-" "_") ":" "_")
        lbraceS "").toList := by
    rw [pyReplace_toList]
    exact pyReplaceAux_preserves _ _ _ (by decide) _ _ h3
  have h2c : ('-' : Char) ∉
      (pyReplace (pyReplace (pyReplace (pyReplace r "/" "_") "-" "_") ":" "_")
        lbraceS "").toList := by
    rw [pyReplace_toList]
    exact pyReplaceAux_preserves _ _ _ (by decide) _ _ h2b
  have h1d : ('/' : Char) ∉
      (pyReplace (pyReplace (pyReplace (pyReplace r "/" "_") "-" "_") ":" "_")
        lbraceS "").toList := by
    rw [pyReplace_toList]
    exact pyReplaceAux_preserves _ _ _ (by decide) _ _ h1c
  have h5 : (Char.ofNat 125) ∉ (cleanRouteForName r).toList := by
    rw [cleanRouteForName, pyReplace_toList]
    have : rbraceS.toList = [Char.ofNat 125] := by decide
    rw [this]
    exact pyReplaceAux_eliminates (Char.ofNat 125) "".toList (by decide) _ _
  have h4b : (Char.ofNat 123) ∉ (cleanRouteForName r).toList := by
    rw [cleanRouteForName, pyReplace_toList]
    exact pyReplaceAux_preserves _ _ _ (by decide) _ _ h4
  have h3c : (':' : Char) ∉ (cleanRouteForName r).toList := by
    rw [cleanRouteForName, pyReplace_toList]
    exact pyReplaceAux_preserves _ _ _ (by decide) _ _ h3b
  have h2d : ('-' : Char) ∉ (cleanRouteForName r).toList := by
    rw [cleanRouteForName, pyReplace_toList]
    exact pyReplaceAux_preserves _ _ _ (by decide) _ _ h2c
  have h1e : ('/' : Char) ∉ (cleanRouteForName r).toList := by
    rw [cleanRouteForName, pyReplace_toList]
    exact pyReplaceAux_preserves _ _ _ (by decide) _ _ h1d
  simp only [nameSeparators, List.mem_cons, List.not_mem_nil, or_false] at hsep
  rcases hsep with h | h | h | h | h
  · exact h1e (h ▸ hmem)
  · exact h2d (h ▸ hmem)
  · exact h3c (h ▸ hmem)
  · exact h4b (h ▸ hmem)
  · exact h5 (h ▸ hmem)

/-! ## Claim theorems -/

/-- C4: flattening a report with a Section row whose header label is
    "Income" and whose nested Data row has column values
    Sales/1000/1200 under column titles Account/Jan/Feb produces exactly
    the two ReportRows (Income > Sales, Jan, 1000) and
    (Income > Sales, Feb, 1200), in that order, each tagged Data with
    depth 1 — the lineage length before the leaf's own label is
    appended. -/
theorem c4_income_scenario :
    flattenReportRows demoReport =
      [⟨"Income > Sales", "Jan", 1000, "Data", 1, none⟩,
       ⟨"Income > Sales", "Feb", 1200, "Data", 1, none⟩] := by decide

/-- C9: response-shape normalization is idempotent in shape — an object
    passes through unchanged, a list is wrapped exactly once under
    `results` (and normalizing the wrapped object is the identity, so a
    list is never double-wrapped), and every other decoded shape fails
    with the type-mismatch error. -/
theorem c9_shape_normalization :
    (∀ fs, normalizeResponse (.obj fs) = .ok (.obj fs)) ∧
    (∀ xs, normalizeResponse (.arr xs) = .ok (.obj [("results", .arr xs)]) ∧
      normalizeResponse (.obj [("results", .arr xs)]) =
        .ok (.obj [("results", .arr xs)])) ∧
    normalizeResponse .null = .error "Expected dict response but got NoneType" ∧
    (∀ b, normalizeResponse (.bool b) =
      .error "Expected dict response but got bool") ∧
    (∀ n, normalizeResponse (.num n) =
      .error "Expected dict response but got int") ∧
    (∀ s, normalizeResponse (.str s) =
      .error "Expected dict response but got str") :=
  ⟨fun _ => rfl, fun _ => ⟨rfl, rfl⟩, rfl, fun _ => rfl, fun _ => rfl,
    fun _ => rfl⟩

/-- C5: leaf flattening is total and emits one ReportRow per column at
    index at least 1 whose value parses as a decimal number; unparseable
    columns are skipped silently, so a leaf with at least one numeric
    column yields at least one row and a leaf with none yields zero. -/
theorem c5_leaf_emission :
    (∀ (cols lineage : List String) (fuel : Nat) (row : JVal)
       (rest : List JVal), rowTypeOf row ≠ some "Section" →
       walkRows cols (fuel + 1) lineage (row :: rest) =
         leafEmit cols lineage (rowTypeOf row) row ++
           walkRows cols fuel lineage rest) ∧
    (∀ (cols lineage : List String) (rt : Option String) (row : JVal),
       (leafEmit cols lineage rt row).length =
         ((asList (row.get "ColData")).drop 1).countP
           (fun cd => (pyFloatO (cd.get "value")).isSome)) ∧
    (∀ (cols lineage : List String) (rt : Option String) (row : JVal),
       ((asList (row.get "ColData")).drop 1).countP
           (fun cd => (pyFloatO (cd.get "value")).isSome) = 0 →
       leafEmit cols lineage rt row = []) ∧
    (∀ (cols lineage : List String) (rt : Option String) (row : JVal),
       0 < ((asList (row.get "ColData")).drop 1).countP
           (fun cd => (pyFloatO (cd.get "value")).isSome) →
       0 < (leafEmit cols lineage rt row).length) := by
  have hlen : ∀ (cols lineage : List String) (rt : Option String) (row : JVal),
      (leafEmit cols lineage rt row).length =
        ((asList (row.get "ColData")).drop 1).countP
          (fun cd => (pyFloatO (cd.get "value")).isSome) := by
    intro cols lineage rt row
    simp only [leafEmit]
    exact emitCols_length _ _ _ _ _ _ _
  refine ⟨?_, hlen, ?_, ?_⟩
  · intro cols lineage fuel row rest hrt
    simp [walkRows, hrt]
  · intro cols lineage rt row h
    have := hlen cols lineage rt row
    rw [h] at this
    exact List.length_eq_zero.mp this
  · intro cols lineage rt row h
    rw [hlen cols lineage rt row]
    exact h

/-- Witness for C5 at concrete leaves: a leaf with one numeric column
    (of two value columns) emits exactly one row; a leaf whose value
    columns are all non-numeric emits none. -/
theorem c5_witness :
    walkRows [] 1 [] [.obj [("type", .str "Data"), ("ColData", .arr [])]] =
      leafEmit [] [] (some "Data")
        (.obj [("type", .str "Data"), ("ColData", .arr [])]) ∧
    (leafEmit [] [] none (.obj [("ColData",
        .arr [.obj [("value", .str "Sales")], .obj [("value", .str "n/a")],
              .obj [("value", .str "7")]])])).length = 1 ∧
    leafEmit [] [] none (.obj [("ColData",
        .arr [.obj [("value", .str "Sales")],
              .obj [("value", .str "n/a")]])]) = [] := by
  refine ⟨?_, ?_, ?_⟩
  · exact (c5_leaf_emission.1 [] [] 0
      (.obj [("type", .str "Data"), ("ColData", .arr [])]) [] (by decide)).trans
      (by decide)
  · rw [c5_leaf_emission.2.1 [] [] none (.obj [("ColData",
      .arr [.obj [("value", .str "Sales")], .obj [("value", .str "n/a")],
            .obj [("value", .str "7")]])])]
    decide
  · exact c5_leaf_emission.2.2.1 [] [] none _ (by decide)

/-- C3: the dispatch policy of call_route — 200 yields the parsed body
    with no refresh; a first-attempt 401 performs exactly one refresh and
    exactly one retry, surfacing any non-200 retry status with its raw
    body; any other first-attempt status is surfaced immediately with no
    retry; and no call ever makes more than two transport requests. -/
theorem c3_dispatch_policy :
    ∀ r1 r2 : HttpResp,
    (r1.status = 200 → call_route r1 r2 = (.ok r1.body, 1, 0)) ∧
    (r1.status = 401 →
       (call_route r1 r2).2 = (2, 1) ∧
       (r2.status = 200 → (call_route r1 r2).1 = .ok r2.body) ∧
       (r2.status ≠ 200 → (call_route r1 r2).1 = .error ⟨r2.status, r2.text⟩)) ∧
    (r1.status ≠ 200 → r1.status ≠ 401 →
       call_route r1 r2 = (.error ⟨r1.status, r1.text⟩, 1, 0)) ∧
    (call_route r1 r2).2.1 ≤ 2 := by
  intro r1 r2
  refine ⟨?_, ?_, ?_, ?_⟩
  · intro h1
    simp [call_route, h1]
  · intro h1
    have h200 : r1.status ≠ 200 := by omega
    refine ⟨by simp [call_route, h200, h1], ?_, ?_⟩
    · intro h2
      simp [call_route, h200, h1, h2]
    · intro h2
      simp [call_route, h200, h1, h2]
  · intro h1 h2
    simp [call_route, h1, h2]
  · by_cases h1 : r1.status = 200
    · simp [call_route, h1]
    · by_cases h2 : r1.status = 401
      · simp [call_route, h1, h2]
      · simp [call_route, h1, h2]

/-- Witness for C3 at concrete responses: a 200, a 401 recovered by the
    retry, and a 500 surfaced immediately. -/
theorem c3_witness :
    call_route ⟨200, .str "fine", "fine"⟩ ⟨500, .null, "boom"⟩ =
      (.ok (.str "fine"), 1, 0) ∧
    (call_route ⟨401, .null, "expired"⟩ ⟨403, .null, "denied"⟩).2 = (2, 1) ∧
    (call_route ⟨401, .null, "expired"⟩ ⟨403, .null, "denied"⟩).1 =
      .error ⟨403, "denied"⟩ ∧
    call_route ⟨500, .null, "boom"⟩ ⟨200, .null, ""⟩ =
      (.error ⟨500, "boom"⟩, 1, 0) := by
  refine ⟨?_, ?_, ?_, ?_⟩
  · exact (c3_dispatch_policy ⟨200, .str "fine", "fine"⟩ ⟨500, .null, "boom"⟩).1 rfl
  · exact ((c3_dispatch_policy ⟨401, .null, "expired"⟩ ⟨403, .null, "denied"⟩).2.1
      rfl).1
  · exact ((c3_dispatch_policy ⟨401, .null, "expired"⟩ ⟨403, .null, "denied"⟩).2.1
      rfl).2.2 (by decide)
  · exact (c3_dispatch_policy ⟨500, .null, "boom"⟩ ⟨200, .null, ""⟩).2.2.1
      (by decide) (by decide)

/-- C6 counterexample: the routes "/a-b" and "/a/b" are distinct but
    normalize to the same operation name, and the registration loop
    registers both without any failure — there is no
    DuplicateOperationError in the code, contrary to the claim. -/
theorem c6_counterexample :
    registerAll [("get", "/a-b"), ("get", "/a/b")] = ["get_a_b", "get_a_b"] ∧
    ("/a-b" : String) ≠ "/a/b" := ⟨by decide, by decide⟩

/-- C6 amended: the public operation name is the method concatenated with
    the route after stripping the tenant-scope segment and normalizing
    the separators (no separator character survives normalization), and
    the registration loop registers every (method, route) pair — two
    distinct routes that normalize to the same name are both registered
    under that name with no error raised by this code. -/
theorem c6_naming :
    operationName "get"
        ("/v3/company/" ++ lbraceS ++ "realmId" ++ rbraceS ++ "/bill/" ++
          lbraceS ++ "billId" ++ rbraceS) = "get_bill_billId" ∧
    (∀ apis : List (String × String), (registerAll apis).length = apis.length) ∧
    (∀ r : String, ∀ c ∈ (cleanRouteForName r).toList, c ∉ nameSeparators) ∧
    registerAll [("get", "/a-b"), ("get", "/a/b")] = ["get_a_b", "get_a_b"] := by
  refine ⟨by decide, ?_, ?_, by decide⟩
  · intro apis
    simp [registerAll]
  · exact cleanRouteForName_sepFree

/-- Witness for C6: the normalized name of the route "/a" contains the
    character a, which is therefore not a separator. -/
theorem c6_witness : ('a' : Char) ∉ nameSeparators :=
  c6_naming.2.2.1 "/a" 'a' (by decide)

/-- C7 counterexample: a request-body schema declaring one property whose
    schema has no description compiles to a body map binding that
    property to null — not to a "no description" marker string, contrary
    to the claim that the description is never null. -/
theorem c7_counterexample :
    resolveRequestData
        (.obj [("properties", .obj [("amount", .obj [("type", .str "number")])])])
        [] = .ok (some (.obj [("amount", JVal.null)])) := rfl

/-- C7 amended: when the request-body schema declares a non-empty
    `properties` map, the compiled body map has exactly one entry per
    declared property (keys preserved in order), each bound to the
    property's description when present — and to null (None), not to a
    marker string, when the description is absent. -/
theorem c7_body_properties :
    ∀ (fields props comps : List (String × JVal)),
    lookupStr fields "properties" = some (.obj props) → props ≠ [] →
    resolveRequestData (.obj fields) comps =
      .ok (some (.obj (props.map (fun kv =>
        (kv.1, (kv.2.get "description").getD JVal.null))))) ∧
    (props.map (fun kv =>
      (kv.1, (kv.2.get "description").getD JVal.null))).map Prod.fst =
      props.map Prod.fst ∧
    (∀ kv ∈ props, kv.2.get "description" = none →
      (kv.1, JVal.null) ∈ props.map (fun kv =>
        (kv.1, (kv.2.get "description").getD JVal.null))) := by
  intro fields props comps hprops hne
  refine ⟨?_, ?_, ?_⟩
  · simp only [resolveRequestData, hprops]
    have htr : jtruthyO (some (JVal.obj props)) = true := by
      simp [jtruthyO, jtruthy, hne]
    rw [htr]
    simp
  · rw [List.map_map]
    rfl
  · intro kv hkv hdesc
    exact List.mem_map.mpr ⟨kv, hkv, by rw [hdesc]; rfl⟩

/-- Witness for C7: a single property carrying a description compiles to
    that description. -/
theorem c7_witness :
    resolveRequestData
        (.obj [("properties",
          .obj [("note", .obj [("description", .str "memo")])])]) [] =
      .ok (some (.obj [("note", JVal.str "memo")])) :=
  (c7_body_properties [("properties",
      .obj [("note", .obj [("description", .str "memo")])])]
    [("note", .obj [("description", .str "memo")])] [] rfl
    (List.cons_ne_nil _ _)).1

/-- C8 counterexample: the page token "-5" is not a non-negative integer
    string, yet both the query and the report call accept it (parsing it
    to the negative start position -5) instead of failing — contrary to
    the claim. -/
theorem c8_counterexample :
    parsePageTokenQuery (some "-5") = .ok (some (-5)) ∧
    parsePageTokenReport (some "-5") = .ok (some (-5)) ∧ ((-5 : Int) < 0) :=
  ⟨rfl, rfl, by decide⟩

/-- C8 amended: a non-empty caller-supplied page token is accepted by
    both the query and the report call exactly when it parses as an
    optionally signed integer string (so negative tokens are accepted
    too); a token that does not parse as an integer fails with the
    invalid-page-token error before any request is dispatched. -/
theorem c8_token_validation :
    ∀ s : String, s ≠ "" →
    (∀ n : Int, pyIntOfString s = some n →
       parsePageTokenQuery (some s) = .ok (some n) ∧
       parsePageTokenReport (some s) = .ok (some n)) ∧
    (pyIntOfString s = none →
       parsePageTokenQuery (some s) =
         .error "Invalid page_token; expected integer string for start position" ∧
       parsePageTokenReport (some s) =
         .error "Invalid page_token; expected integer string for start position") := by
  intro s hs
  constructor
  · intro n hn
    constructor
    · simp [parsePageTokenQuery, hs, hn]
    · simp [parsePageTokenReport, hs, hn]
  · intro hn
    constructor
    · simp [parsePageTokenQuery, hs, hn]
    · simp [parsePageTokenReport, hs, hn]

/-- Witness for C8: the token "73" is accepted as start position 73, and
    the token "1.5" is rejected with the invalid-page-token error. -/
theorem c8_witness :
    parsePageTokenQuery (some "73") = .ok (some 73) ∧
    parsePageTokenReport (some "1.5") =
      .error "Invalid page_token; expected integer string for start position" := by
  constructor
  · exact ((c8_token_validation "73" (by decide)).1 73 (by decide)).1
  · exact ((c8_token_validation "1.5" (by decide)).2 (by decide)).2

/-- C10 counterexample: with totalCount missing from the pagination
    block (and a full page returned), the code still produces the token
    "51" — the claim that a missing pagination field leaves the
    next-page token absent is false. -/
theorem c10_counterexample :
    computeNextPageToken
        (.obj [("startPosition", .num 1), ("maxResults", .num 50)]) 50
        (some 500) = some "51" := by decide

/-- C10 amended: the token derivation is a total function that never
    propagates an error — a startPosition that fails integer parsing, a
    non-dict QueryResponse, or an underivable effective page size each
    yield a result with the token absent; but missing maxResults falls
    back to the caller's page size and a missing totalCount falls back
    to the full-page heuristic, so a token can still be produced when
    those fields are missing. -/
theorem c10_token_totality :
    (∀ (fs : List (String × JVal)) (rowsLen : Nat) (pageSize : Option Int)
       (v : JVal), lookupStr fs "startPosition" = some v → pyInt v = none →
       computeNextPageToken (.obj fs) rowsLen pageSize = none) ∧
    (∀ (rowsLen : Nat) (pageSize : Option Int),
       computeNextPageToken .null rowsLen pageSize = none ∧
       (∀ b, computeNextPageToken (.bool b) rowsLen pageSize = none) ∧
       (∀ n, computeNextPageToken (.num n) rowsLen pageSize = none) ∧
       (∀ s, computeNextPageToken (.str s) rowsLen pageSize = none) ∧
       (∀ xs, computeNextPageToken (.arr xs) rowsLen pageSize = none)) ∧
    (∀ (fs : List (String × JVal)) (rowsLen : Nat) (pageSize : Option Int),
       effectivePageSize fs pageSize = none →
       computeNextPageToken (.obj fs) rowsLen pageSize = none) := by
  refine ⟨?_, ?_, ?_⟩
  · intro fs rowsLen pageSize v hv hpv
    simp only [computeNextPageToken, hv, Option.getD_some, hpv]
  · intro rowsLen pageSize
    exact ⟨rfl, fun _ => rfl, fun _ => rfl, fun _ => rfl, fun _ => rfl⟩
  · intro fs rowsLen pageSize h
    exact token_none_of_eps_none fs rowsLen pageSize h

/-- Witness for C10: an unparseable startPosition yields an absent
    token, and so does an absent effective page size. -/
theorem c10_witness :
    computeNextPageToken
        (.obj [("startPosition", .str "soon"), ("maxResults", .num 50)]) 50
        (some 500) = none ∧
    computeNextPageToken (.obj [("startPosition", .num 1)]) 50 none = none := by
  constructor
  · exact c10_token_totality.1 [("startPosition", .str "soon"),
      ("maxResults", .num 50)] 50 (some 500) (.str "soon") rfl (by decide)
  · exact c10_token_totality.2.2 [("startPosition", .num 1)] 50 none (by decide)

/-- C1 counterexample: with startPosition 1, maxResults 50, totalCount 40
    and 50 rows returned, the code produces the cursor "51" — the claim
    says the cursor is absent at exactly this input, because totalCount is
    present and 1 + 50 exceeds 40. -/
theorem c1_counterexample :
    computeNextPageToken
        (.obj [("startPosition", .num 1), ("maxResults", .num 50),
          ("totalCount", .num 40)]) 50 (some 500) = some "51" := by decide

/-- C1 amended: when the start position and effective page size are
    derivable, the cursor exists and equals the string of
    start + effective page size exactly when totalCount is present and
    start + effective page size is at most totalCount, or the number of
    rows returned equals the effective page size — the full-page
    heuristic applies whether or not totalCount is present.  No other
    cursor value ever occurs.  In particular start 1 / maxResults 50 with
    50 rows yields "51" both for totalCount 120 and for totalCount 40. -/
theorem c1_pagination_cursor :
    (∀ (fs : List (String × JVal)) (rowsLen : Nat) (pageSize : Option Int)
       (start m : Int),
       pyInt ((lookupStr fs "startPosition").getD (.num 1)) = some start →
       effectivePageSize fs pageSize = some m →
       (computeNextPageToken (.obj fs) rowsLen pageSize =
           some (toString (start + m)) ↔
         (∃ t, (lookupStr fs "totalCount").bind pyInt = some t ∧
            start + m ≤ t) ∨ (rowsLen : Int) = m) ∧
       (computeNextPageToken (.obj fs) rowsLen pageSize = none ∨
        computeNextPageToken (.obj fs) rowsLen pageSize =
          some (toString (start + m)))) ∧
    computeNextPageToken
        (.obj [("startPosition", .num 1), ("maxResults", .num 50),
          ("totalCount", .num 120)]) 50 (some 500) = some "51" ∧
    computeNextPageToken
        (.obj [("startPosition", .num 1), ("maxResults", .num 50),
          ("totalCount", .num 40)]) 50 (some 500) = some "51" := by
  refine ⟨?_, by decide, by decide⟩
  intro fs rowsLen pageSize start m hs hm
  simp only [computeNextPageToken, hs, hm]
  cases ht : (lookupStr fs "totalCount").bind pyInt with
  | none =>
    by_cases hrows : (rowsLen : Int) = m
    · simp [ht, hrows]
    · simp [ht, hrows]
  | some t =>
    by_cases hle : start + m ≤ t
    · simp [ht, hle]
    · by_cases hrows : (rowsLen : Int) = m
      · simp [ht, hle, hrows]
      · simp [ht, hle, hrows]

/-- Witness for C1: the amended characterization applied at the concrete
    pagination block with totalCount 120 yields the cursor "51". -/
theorem c1_witness :
    computeNextPageToken
        (.obj [("startPosition", .num 1), ("maxResults", .num 50),
          ("totalCount", .num 120)]) 50 (some 500) = some "51" := by
  have h := ((c1_pagination_cursor.1
    [("startPosition", .num 1), ("maxResults", .num 50),
      ("totalCount", .num 120)] 50 (some 500) 1 50 (by decide) (by decide)).1).mpr
    (Or.inr (by decide))
  have e : toString ((1 : Int) + 50) = "51" := by decide
  rw [e] at h
  exact h

/-- C2 counterexample: the route template /bill/(billId) has one
    placeholder and the argument map omits it, yet binding succeeds and
    hands the dispatcher the unsubstituted template instead of failing
    with a binding error — because the source formats the route only when
    the collected path map is non-empty. -/
theorem c2_counterexample :
    bindRequest [.lit "/bill/", .hole "billId"] [⟨"billId", "path"⟩] "get" [] =
      .ok ⟨"/bill/" ++ lbraceS ++ "billId" ++ rbraceS, [], []⟩ := rfl

/-- C2 amended: when no path argument at all is supplied, binding
    succeeds with the route template passed through unsubstituted; when
    at least one path argument is supplied, binding succeeds exactly when
    every placeholder of the template has a supplied value, and a failure
    is a BindingError naming a placeholder that has no supplied value
    (the first such, hence the omitted one when exactly one is missing)
    together with the unsubstituted route. -/
theorem c2_route_binding :
    ∀ (tpl : List RoutePart) (apiParams : List ParamInfo) (methodLower : String)
      (kwargs : List (String × String)),
    (pathParamsOf apiParams kwargs = [] →
       bindRequest tpl apiParams methodLower kwargs =
         .ok ⟨renderTemplate tpl, queryParamsOf apiParams kwargs,
              bodyOf methodLower (pathParamsOf apiParams kwargs)
                (queryParamsOf apiParams kwargs) kwargs⟩) ∧
    (pathParamsOf apiParams kwargs ≠ [] →
       ((∃ req, bindRequest tpl apiParams methodLower kwargs = .ok req) ↔
          ∀ n ∈ holesOf tpl,
            (lookupS (pathParamsOf apiParams kwargs) n).isSome) ∧
       (∀ e, bindRequest tpl apiParams methodLower kwargs = .error e →
          e.route = renderTemplate tpl ∧ e.placeholder ∈ holesOf tpl ∧
          lookupS (pathParamsOf apiParams kwargs) e.placeholder = none)) := by
  intro tpl apiParams methodLower kwargs
  constructor
  · intro h
    simp [bindRequest, h]
  · intro h
    have hne : (pathParamsOf apiParams kwargs).isEmpty = false := by
      cases hpp : pathParamsOf apiParams kwargs with
      | nil => exact absurd hpp h
      | cons a l => simp
    have hb : bindRequest tpl apiParams methodLower kwargs =
        match pyFormat tpl (pathParamsOf apiParams kwargs) with
        | .ok r => .ok ⟨r, queryParamsOf apiParams kwargs,
            bodyOf methodLower (pathParamsOf apiParams kwargs)
              (queryParamsOf apiParams kwargs) kwargs⟩
        | .error missing => .error ⟨missing, renderTemplate tpl⟩ := by
      simp [bindRequest, hne]
    constructor
    · constructor
      · intro hex
        apply (pyFormat_ok_iff tpl _).mp
        cases hf : pyFormat tpl (pathParamsOf apiParams kwargs) with
        | ok r => exact ⟨r, rfl⟩
        | error e =>
          obtain ⟨req, hreq⟩ := hex
          rw [hb, hf] at hreq
          simp at hreq
      · intro hall
        obtain ⟨r, hr⟩ := (pyFormat_ok_iff tpl _).mpr hall
        exact ⟨⟨r, queryParamsOf apiParams kwargs,
          bodyOf methodLower (pathParamsOf apiParams kwargs)
            (queryParamsOf apiParams kwargs) kwargs⟩, by rw [hb, hr]⟩
    · intro e he
      cases hf : pyFormat tpl (pathParamsOf apiParams kwargs) with
      | ok r =>
        rw [hb, hf] at he
        simp at he
      | error e' =>
        rw [hb, hf] at he
        simp only [Except.error.injEq] at he
        obtain ⟨hmem, hnone⟩ := pyFormat_error_spec tpl _ e' hf
        cases he
        exact ⟨rfl, hmem, hnone⟩

/-- Witness for C2: with the single path argument x supplied, binding
    the template /a/(x) succeeds. -/
theorem c2_witness :
    bindOk (bindRequest [.lit "/a/", .hole "x"] [⟨"x", "path"⟩] "get"
      [("x", "1")]) = true := by
  obtain ⟨req, hreq⟩ := ((c2_route_binding [.lit "/a/", .hole "x"]
    [⟨"x", "path"⟩] "get" [("x", "1")]).2 (by decide)).1.mpr (by decide)
  rw [hreq]
  rfl

end QB
